import Mathlib

set_option maxRecDepth 8000

/-! Shallow embedding of the spreadsheet-normalization pipeline of
portfolio-python-automacao (project 01-normalizador-planilhas).
The cell model, field parsers, schema canonicalization, validator and
the artifact-writing pipeline are translated from src/normalize.py,
src/schema.py, src/validation.py and src/run_artifacts.py. -/

/-- Python date value (a pandas Timestamp whose time part is zero; the
pipeline only ever produces midnight timestamps and the claims only
observe the calendar date). -/
structure PyDate where
  year : Nat
  month : Nat
  day : Nat
deriving DecidableEq, Repr

/-- A raw spreadsheet cell as pandas hands it to the pipeline: None,
float NaN, text, a finite number, or a date.  Exact rationals stand in
for Python floats; every numeric value the claims mention is exactly
representable. -/
inductive Cell where
  | cNone
  | cNaN
  | cStr (s : String)
  | cNum (q : Rat)
  | cDate (d : PyDate)
deriving DecidableEq, Repr

/-- Whitespace as Python str.strip() removes it (ASCII subset; the
repository's data never carries exotic Unicode spaces). -/
def isPySpace (c : Char) : Bool :=
  c == ' ' || c == '\t' || c == '\n' || c == '\r' || c == '\x0b' || c == '\x0c'

/-- Python str.strip() on a character list. -/
def pyStripL (cs : List Char) : List Char :=
  ((cs.dropWhile isPySpace).reverse.dropWhile isPySpace).reverse

/-- Python str.strip() on a string. -/
def pyStripS (s : String) : String :=
  ⟨pyStripL s.data⟩

/-- Python str.lower() per character: ASCII plus the accented Latin
letters that occur in this repository's headers and flag values. -/
def pyLowerChar (c : Char) : Char :=
  match c with
  | 'Á' => 'á' | 'À' => 'à' | 'Â' => 'â' | 'Ã' => 'ã'
  | 'É' => 'é' | 'Ê' => 'ê'
  | 'Í' => 'í'
  | 'Ó' => 'ó' | 'Ô' => 'ô' | 'Õ' => 'õ'
  | 'Ú' => 'ú'
  | 'Ç' => 'ç'
  | _ => c.toLower

/-- Python str.upper() per character: ASCII plus the accented Latin
letters that occur in this repository's headers and flag values. -/
def pyUpperChar (c : Char) : Char :=
  match c with
  | 'á' => 'Á' | 'à' => 'À' | 'â' => 'Â' | 'ã' => 'Ã'
  | 'é' => 'É' | 'ê' => 'Ê'
  | 'í' => 'Í'
  | 'ó' => 'Ó' | 'ô' => 'Ô' | 'õ' => 'Õ'
  | 'ú' => 'Ú'
  | 'ç' => 'Ç'
  | _ => c.toUpper

/-- Python str.lower() on a string. -/
def pyLowerS (s : String) : String :=
  ⟨s.data.map pyLowerChar⟩

/-- Python str.upper() on a string. -/
def pyUpperS (s : String) : String :=
  ⟨s.data.map pyUpperChar⟩

/-- Decimal digits of a natural number, left-padded with zeros to the
given width. -/
def natPad (n : Nat) (w : Nat) : String :=
  let s := toString n
  ⟨List.replicate (w - s.length) '0'⟩ ++ s

/-- ISO rendering of a date, as str() shows the date part of a pandas
Timestamp. -/
def isoRepr (d : PyDate) : String :=
  natPad d.year 4 ++ "-" ++ natPad d.month 2 ++ "-" ++ natPad d.day 2

/-- Best-effort model of Python str() on a float: integral values render
as "n.0", other values with up to six decimals.  No claim depends on the
exact digits of a non-integral rendering. -/
def decRepr (q : Rat) : String :=
  let sgn := if q.num < 0 then "-" else ""
  let n := q.num.natAbs
  if q.den = 1 then sgn ++ toString n ++ ".0"
  else
    let scaled := n * 10 ^ 6 / q.den
    let ip := scaled / 10 ^ 6
    let fp := scaled % 10 ^ 6
    let fpCs := ((natPad fp 6).data.reverse.dropWhile (fun c => c == '0')).reverse
    sgn ++ toString ip ++ "." ++ (if fpCs.isEmpty then "0" else (⟨fpCs⟩ : String))

/-- Python str() applied to a cell value. -/
def pyStrOfCell (c : Cell) : String :=
  match c with
  | .cNone => "None"
  | .cNaN => "nan"
  | .cStr s => s
  | .cNum q => decRepr q
  | .cDate d => isoRepr d ++ " 00:00:00"

/-- pandas pd.isna on a cell: true on None and NaN, false on any string
(including the empty string), number or date. -/
def pyIsNa (c : Cell) : Bool :=
  match c with
  | .cNone => true
  | .cNaN => true
  | _ => false

/-- pandas pd.notnull on a cell. -/
def pyNotNull (c : Cell) : Bool :=
  !(pyIsNa c)

/-- Python `==` between a cell and a string literal: only equal string
cells compare equal; None, NaN, numbers and dates never equal a str. -/
def cellEqStr (c : Cell) (s : String) : Bool :=
  match c with
  | .cStr t => t == s
  | _ => false

/-- Helper `_s` of src/validation.py: None stays None, anything else is
str()-ed and stripped, with the empty result mapped to None. -/
def _s (val : Cell) : Option String :=
  match val with
  | .cNone => none
  | v =>
    let s := pyStripS (pyStrOfCell v)
    if s == "" then none else some s

/-- Yes/no flag parser `_normalize_yes_no` of src/normalize.py: None and
float NaN give the empty state, recognized truthy spellings give "SIM",
recognized falsy spellings give "NÃO", everything else passes through
trimmed and uppercased. -/
def _normalize_yes_no (value : Cell) : String :=
  match value with
  | .cNone => ""
  | .cNaN => ""
  | v =>
    let s := pyUpperS (pyStripS (pyStrOfCell v))
    if (["SIM", "S", "YES", "Y", "TRUE", "1"].contains s) then "SIM"
    else if (["NÃO", "NAO", "N", "NO", "FALSE", "0", ""].contains s) then
      (if s == "" then "" else "NÃO")
    else s

/-- Separator characters of the regex `[_\-\/]+` in src/schema.py. -/
def isSepChar (c : Char) : Bool :=
  c == '_' || c == '-' || c == '/'

/-- Worker replacing each run of separator characters with one space
(re.sub of `[_\-\/]+` with a single space); the flag records whether the
previous character belonged to a separator run. -/
def sepRunsGo : Bool → List Char → List Char
  | _, [] => []
  | prev, c :: rest =>
    if isSepChar c then
      if prev then sepRunsGo true rest else ' ' :: sepRunsGo true rest
    else c :: sepRunsGo false rest

/-- Replace runs of `_`, `-`, `/` by a single space. -/
def sepRuns (cs : List Char) : List Char :=
  sepRunsGo false cs

/-- Worker replacing each whitespace run with one space (re.sub of `\s+`
with a single space). -/
def collapseWsGo : Bool → List Char → List Char
  | _, [] => []
  | prev, c :: rest =>
    if isPySpace c then
      if prev then collapseWsGo true rest else ' ' :: collapseWsGo true rest
    else c :: collapseWsGo false rest

/-- Replace whitespace runs by a single space. -/
def collapseWs (cs : List Char) : List Char :=
  collapseWsGo false cs

/-- Characters the regex `[^a-z0-9 ]+` of src/schema.py keeps. -/
def isAllowedChar (c : Char) : Bool :=
  c.isLower || c.isDigit || c == ' '

/-- Unicode NFKD decomposition per character, for the alphabet this
repository's headers use (ASCII, Portuguese accented letters, and the
masculine/feminine ordinal indicators); other characters decompose to
themselves, as NFKD leaves non-decomposable characters alone. -/
def nfkdChar (c : Char) : List Char :=
  match c with
  | 'º' => ['o'] | 'ª' => ['a']
  | 'á' => ['a', '́'] | 'à' => ['a', '̀']
  | 'â' => ['a', '̂'] | 'ã' => ['a', '̃']
  | 'é' => ['e', '́'] | 'ê' => ['e', '̂']
  | 'í' => ['i', '́']
  | 'ó' => ['o', '́'] | 'ô' => ['o', '̂'] | 'õ' => ['o', '̃']
  | 'ú' => ['u', '́']
  | 'ç' => ['c', '̧']
  | _ => [c]

/-- unicodedata.combining(ch) != 0, for the combining marks the NFKD
table above can produce. -/
def isCombining (c : Char) : Bool :=
  c == '̀' || c == '́' || c == '̂' || c == '̃' || c == '̧'

/-- Column-name canonicalization `canon_col` of src/schema.py: strip and
lowercase, NFKD-fold accents away, turn separator runs into spaces, drop
everything outside lowercase letters / digits / space, collapse
whitespace runs and trim. -/
def canon_col (name : String) : String :=
  let s1 := pyLowerS (pyStripS name)
  let s2 := (s1.data.flatMap nfkdChar).filter (fun c => !(isCombining c))
  let s3 := sepRuns s2
  let s4 := s3.filter isAllowedChar
  ⟨pyStripL (collapseWs s4)⟩

/-- Python str.replace("R$", "") scanning left to right. -/
def removeRMark : List Char → List Char
  | [] => []
  | 'R' :: '$' :: rest => removeRMark rest
  | c :: rest => c :: removeRMark rest

/-- Python str.rfind of a character: index of the last occurrence, -1 if
absent. -/
def pyRfind (cs : List Char) (c : Char) : Int :=
  cs.enum.foldl (fun acc p => if p.2 == c then (p.1 : Int) else acc) (-1)

/-- Value of a list of decimal digit characters. -/
def digitsToNat (cs : List Char) : Nat :=
  cs.foldl (fun n c => n * 10 + (c.toNat - '0'.toNat)) 0

/-- Signed decimal integer, as the exponent part of a Python float
literal allows it. -/
def parseSignedInt (cs : List Char) : Option Int :=
  let p := match cs with
    | '+' :: t => ((1 : Int), t)
    | '-' :: t => ((-1 : Int), t)
    | t => ((1 : Int), t)
  if !p.2.isEmpty && p.2.all Char.isDigit then
    some (p.1 * (digitsToNat p.2 : Int))
  else none

/-- Model of Python float() on a string, restricted to finite decimal
literals (optional sign, digits with at most one point, optional
exponent).  The value sign * ip.fp * 10^e is assembled as one exact
rational via mkRat.  Non-finite literals such as "nan" and "inf" are
treated as parse failures: the embedding works over exact rationals,
and in the pipeline both routes end in the same absent cell after the
final null-replacement step. -/
def pyFloatOfString (cs0 : List Char) : Option Rat :=
  let cs := pyStripL cs0
  let sp := match cs with
    | '+' :: t => ((1 : Int), t)
    | '-' :: t => ((-1 : Int), t)
    | t => ((1 : Int), t)
  let me := sp.2.span (fun c => !(c == 'e' || c == 'E'))
  let expVal : Option Int := match me.2 with
    | [] => some 0
    | _ :: t => parseSignedInt t
  match expVal with
  | none => none
  | some e =>
    let ipRest := me.1.span (fun c => !(c == '.'))
    let fpOpt : Option (List Char) := match ipRest.2 with
      | [] => some []
      | _ :: t => if t.contains '.' then none else some t
    match fpOpt with
    | none => none
    | some fp =>
      if ipRest.1.all Char.isDigit && fp.all Char.isDigit &&
          !(ipRest.1.isEmpty && fp.isEmpty) then
        let m : Int := sp.1 * (digitsToNat (ipRest.1 ++ fp) : Int)
        some (if 0 ≤ e then mkRat (m * 10 ^ e.toNat) (10 ^ fp.length)
          else mkRat m (10 ^ fp.length * 10 ^ (-e).toNat))
      else none

/-- Money parser `_parse_money_mixed` of src/normalize.py: None gives
None; otherwise str(), strip, drop the "R$" marker and spaces, then
disambiguate the decimal separator (both present: the one occurring last
wins; only a comma: the comma is decimal), and convert with float(),
mapping conversion failure to None. -/
def _parse_money_mixed (value : Cell) : Option Rat :=
  match value with
  | .cNone => none
  | v =>
    let s0 := pyStripL (pyStrOfCell v).data
    if s0.isEmpty then none
    else
      let s1 := (removeRMark s0).filter (fun c => !(c == ' '))
      let s2 :=
        if s1.contains '.' && s1.contains ',' then
          if pyRfind s1 ',' > pyRfind s1 '.' then
            (s1.filter (fun c => !(c == '.'))).map (fun c => if c == ',' then '.' else c)
          else
            s1.filter (fun c => !(c == ','))
        else if s1.contains ',' && !(s1.contains '.') then
          (s1.filter (fun c => !(c == '.'))).map (fun c => if c == ',' then '.' else c)
        else s1
      pyFloatOfString s2

/-- Spec-side description of the money disambiguation (written from the
specification's words, for the refinement statement of claim C2): given
the choice of decimal separator, remove every occurrence of the other
separator as thousands grouping and replace the decimal separator by a
point. -/
def spec_decimal_normalize (cs : List Char) (dec : Char) : List Char :=
  let other := if dec == ',' then '.' else ','
  (cs.filter (fun c => !(c == other))).map (fun c => if c == dec then '.' else c)

/-- Match of the regex `(\d{2}/\d{2}/\d{4})` at the head of the list:
two digits, slash, two digits, slash, four digits, anything after. -/
def matchDateAt (cs : List Char) : Option (Nat × Nat × Nat) :=
  match cs with
  | a :: b :: '/' :: c :: d :: '/' :: e :: f :: g :: h :: _ =>
    if a.isDigit && b.isDigit && c.isDigit && d.isDigit &&
        e.isDigit && f.isDigit && g.isDigit && h.isDigit then
      some (digitsToNat [a, b], digitsToNat [c, d], digitsToNat [e, f, g, h])
    else none
  | _ => none

/-- re.search of `(\d{2}/\d{2}/\d{4})`: leftmost match wins. -/
def reSearchDate : List Char → Option (Nat × Nat × Nat)
  | [] => none
  | c :: t =>
    match matchDateAt (c :: t) with
    | some r => some r
    | none => reSearchDate t

/-- Gregorian leap-year rule, as Python's datetime uses it. -/
def isLeap (y : Nat) : Bool :=
  (y % 4 == 0 && !(y % 100 == 0)) || y % 400 == 0

/-- Days in a month, as Python's datetime uses it. -/
def daysInMonth (y m : Nat) : Nat :=
  if m == 2 then (if isLeap y then 29 else 28)
  else if [4, 6, 9, 11].contains m then 30
  else 31

/-- Calendar validity of year/month/day, mirroring the datetime
constructor's checks. -/
def validDate (y m d : Nat) : Bool :=
  decide (1 ≤ y) && decide (y ≤ 9999) && decide (1 ≤ m) && decide (m ≤ 12) &&
    decide (1 ≤ d) && decide (d ≤ daysInMonth y m)

/-- Model of pd.to_datetime on a "NN/NN/NNNN" string with dayfirst=True
and errors="coerce" (dateutil semantics): a value that cannot be a month
must be the day, otherwise dayfirst puts the first value as the day;
an invalid calendar date coerces to NaT, i.e. None. -/
def toDatetimeDayfirstDate (a b y : Nat) : Option PyDate :=
  let dm := if b > 12 && a ≤ 12 then (b, a) else (a, b)
  if validDate y dm.2 dm.1 then some ⟨y, dm.2, dm.1⟩ else none

/-- Model of the general pd.to_datetime(s, errors="coerce") call on the
formats the pipeline feeds it: ISO "YYYY-MM-DD", optionally followed by
a "T" or space and an "HH:MM:SS" time; anything else coerces to NaT,
i.e. None.  (The time part is validated and then dropped: the claims
observe only the calendar date.) -/
def parseISOGeneral (cs : List Char) : Option PyDate :=
  match cs with
  | y1 :: y2 :: y3 :: y4 :: '-' :: m1 :: m2 :: '-' :: d1 :: d2 :: rest =>
    if y1.isDigit && y2.isDigit && y3.isDigit && y4.isDigit &&
        m1.isDigit && m2.isDigit && d1.isDigit && d2.isDigit then
      let y := digitsToNat [y1, y2, y3, y4]
      let m := digitsToNat [m1, m2]
      let d := digitsToNat [d1, d2]
      if validDate y m d then
        match rest with
        | [] => some ⟨y, m, d⟩
        | sep :: h1 :: h2 :: ':' :: n1 :: n2 :: ':' :: s1 :: s2 :: [] =>
          if (sep == 'T' || sep == ' ') && h1.isDigit && h2.isDigit &&
              n1.isDigit && n2.isDigit && s1.isDigit && s2.isDigit &&
              decide (digitsToNat [h1, h2] ≤ 23) &&
              decide (digitsToNat [n1, n2] ≤ 59) &&
              decide (digitsToNat [s1, s2] ≤ 59) then
            some ⟨y, m, d⟩
          else none
        | _ => none
      else none
    else none
  | _ => none

/-- Date parser `_parse_date_mixed` of src/normalize.py: None gives
None; otherwise str() and strip; an empty result gives None; a
DD/MM/YYYY substring anywhere is parsed day-first; otherwise the general
pd.to_datetime parse runs; NaT coerces to None. -/
def _parse_date_mixed (value : Cell) : Option PyDate :=
  match value with
  | .cNone => none
  | v =>
    let s := pyStripL (pyStrOfCell v).data
    if s.isEmpty then none
    else
      match reSearchDate s with
      | some r => toDatetimeDayfirstDate r.1 r.2.1 r.2.2
      | none => parseISOGeneral s

/-- Python exception values the parsers can meet: float() raises
ValueError on a malformed literal. -/
inductive PyExc where
  | valueError (msg : String)
deriving DecidableEq, Repr

/-- Python float() as the raising operation it is: a malformed literal
raises ValueError instead of returning a value. -/
def pyFloatE (cs : List Char) : Except PyExc Rat :=
  match pyFloatOfString cs with
  | some q => .ok q
  | none => .error (.valueError "could not convert string to float")

/-- Embedding of the try/except ValueError block closing
_parse_money_mixed: return float(s), with a raised ValueError caught and
turned into a returned None. -/
def tryFloat (cs : List Char) : Except PyExc (Option Rat) :=
  match pyFloatE cs with
  | .ok x => .ok (some x)
  | .error (.valueError _) => .ok none

/-- Exception-explicit embedding of `_parse_money_mixed`: identical
control flow, with the float() call modeled as a raising operation and
the source's try/except ValueError catching it via tryFloat. -/
def _parse_money_mixedE (value : Cell) : Except PyExc (Option Rat) :=
  match value with
  | .cNone => .ok none
  | v =>
    let s0 := pyStripL (pyStrOfCell v).data
    if s0.isEmpty then .ok none
    else
      let s1 := (removeRMark s0).filter (fun c => !(c == ' '))
      let s2 :=
        if s1.contains '.' && s1.contains ',' then
          if pyRfind s1 ',' > pyRfind s1 '.' then
            (s1.filter (fun c => !(c == '.'))).map (fun c => if c == ',' then '.' else c)
          else
            s1.filter (fun c => !(c == ','))
        else if s1.contains ',' && !(s1.contains '.') then
          (s1.filter (fun c => !(c == '.'))).map (fun c => if c == ',' then '.' else c)
        else s1
      tryFloat s2

/-- Exception-explicit embedding of `_parse_date_mixed`: no operation in
the source can raise — pd.to_datetime is called with errors="coerce",
which returns NaT on failure instead of raising — so every return site
is an ok. -/
def _parse_date_mixedE (value : Cell) : Except PyExc (Option PyDate) :=
  match value with
  | .cNone => .ok none
  | v =>
    let s := pyStripL (pyStrOfCell v).data
    if s.isEmpty then .ok none
    else
      match reSearchDate s with
      | some r => .ok (toDatetimeDayfirstDate r.1 r.2.1 r.2.2)
      | none => .ok (parseISOGeneral s)

/-- Exception-explicit embedding of `_normalize_yes_no`: str(), strip(),
upper() and set membership are non-raising operations, so every return
site is an ok. -/
def _normalize_yes_noE (value : Cell) : Except PyExc String :=
  match value with
  | .cNone => .ok ""
  | .cNaN => .ok ""
  | v =>
    let s := pyUpperS (pyStripS (pyStrOfCell v))
    if (["SIM", "S", "YES", "Y", "TRUE", "1"].contains s) then .ok "SIM"
    else if (["NÃO", "NAO", "N", "NO", "FALSE", "0", ""].contains s) then
      .ok (if s == "" then "" else "NÃO")
    else .ok s

/-- Alias table COLUMN_ALIASES of src/schema.py: canonical key of a
source header mapped to the internal column name, in source order (the
Python dict has unique keys, so first-match lookup is dict lookup). -/
def COLUMN_ALIASES : List (String × String) :=
  [("cliente", "Cliente"),
   ("nome cliente", "Cliente"),
   ("contrato", "Contrato"),
   ("nr contrato", "Contrato"),
   ("numero contrato", "Contrato"),
   ("taxa", "Taxa"),
   ("tx", "Taxa"),
   ("emissao", "Emissão"),
   ("emissao contrato", "Emissão"),
   ("data emissao", "Emissão"),
   ("data de emissao", "Emissão"),
   ("prazo", "Prazo"),
   ("prazo meses", "Prazo"),
   ("vlr liberado", "Vlr Liberado"),
   ("valor liberado", "Vlr Liberado"),
   ("valor liberacao", "Vlr Liberado"),
   ("valor cancelado", "Valor Cancelado"),
   ("vlr cancelado", "Valor Cancelado"),
   ("valor pago", "VALOR PAGO"),
   ("vlr pago", "VALOR PAGO"),
   ("data pagamento", "Data Pagamento"),
   ("data do pagamento", "Data Pagamento"),
   ("pago", "Pago"),
   ("ted devolvida", "TED/Devolvida"),
   ("ted devolvido", "TED/Devolvida"),
   ("teddevolvida", "TED/Devolvida"),
   ("valor devolvido", "Valor Devolvido"),
   ("valor devolucao", "Valor Devolvido")]

/-- Dictionary lookup in the alias table. -/
def lookupAlias (k : String) : Option String :=
  (COLUMN_ALIASES.find? (fun p => p.1 == k)).map (fun p => p.2)

/-- REQUIRED_COLUMNS of src/schema.py.  The Python value is a set; this
list is its sorted enumeration (Python string order), so that
sorted(REQUIRED_COLUMNS - present) is a filter of this list. -/
def REQUIRED_COLUMNS : List String :=
  ["Cliente", "Contrato", "Emissão", "Vlr Liberado"]

/-- sorted(REQUIRED_COLUMNS - set(cols)) of src/normalize.py line 113. -/
def missingOf (cols : List String) : List String :=
  REQUIRED_COLUMNS.filter (fun c => !(cols.contains c))

/-- An in-memory table as pandas holds it: a header row and the data
rows (all of one length in any table pandas ever builds; a short row
reads as missing values). -/
structure DataFrame where
  headers : List String
  rows : List (List Cell)
deriving DecidableEq, Repr

/-- row.get(name) of a pandas row: the cell under the first header equal
to name, or None when the column is absent. -/
def rowGet (headers : List String) (row : List Cell) (name : String) : Cell :=
  match headers.findIdx? (fun h => h == name) with
  | some j => ((row.get? j).getD Cell.cNone)
  | none => Cell.cNone

/-- Issue record of src/validation.py.  The validator always fills the
row index, so it is a Nat here. -/
structure Issue where
  severity : String
  row : Nat
  contrato : Option String
  cliente : Option String
  message : String
deriving DecidableEq, Repr

/-- Checks of one row of validate_dataframe (src/validation.py lines
33-73), in source order, each appending its issue immediately. -/
def rowChecks (idx : Nat) (g : String → Cell) : List Issue :=
  let cliente := _s (g ("Cliente"))
  let contrato := _s (g ("Contrato"))
  let pago := g ("Pago")
  let data_pag := g ("Data Pagamento")
  let vlr_pago := g ("VALOR PAGO")
  let ted := g ("TED/Devolvida")
  let vlr_dev := g ("Valor Devolvido")
  (if contrato.isNone then [⟨"ERROR", idx, none, cliente, "Contrato vazio"⟩] else []) ++
  (if cliente.isNone then [⟨"ERROR", idx, contrato, none, "Cliente vazio"⟩] else []) ++
  (if cellEqStr pago ("SIM") then
    (if pyIsNa data_pag then
      [⟨"ERROR", idx, contrato, cliente, "Pago=SIM mas Data Pagamento vazio"⟩] else []) ++
    (if pyIsNa vlr_pago then
      [⟨"ERROR", idx, contrato, cliente, "Pago=SIM mas VALOR PAGO vazio"⟩] else [])
  else []) ++
  (if !cellEqStr pago ("SIM") && !pyIsNa vlr_pago then
    [⟨"WARN", idx, contrato, cliente, "Pago!=SIM mas VALOR PAGO preenchido"⟩] else []) ++
  (if cellEqStr ted ("SIM") && pyIsNa vlr_dev then
    [⟨"ERROR", idx, contrato, cliente, "TED/Devolvida=SIM mas Valor Devolvido vazio"⟩] else [])

/-- Row loop of validate_dataframe: idx runs over the default
RangeIndex 0, 1, 2, ... of the parsed table. -/
def validateGo (headers : List String) (idx : Nat) : List (List Cell) → List Issue
  | [] => []
  | r :: rest => rowChecks idx (rowGet headers r) ++ validateGo headers (idx + 1) rest

/-- validate_dataframe of src/validation.py. -/
def validate_dataframe (df : DataFrame) : List Issue :=
  validateGo df.headers 0 df.rows

/-- has_errors of src/validation.py. -/
def has_errors (issues : List Issue) : Bool :=
  issues.any (fun i => i.severity == "ERROR")

/-- Per-column transform statistics of _apply_with_stats
(src/normalize.py lines 305-314). -/
structure ColStats where
  before_non_empty : Int
  after_non_empty : Int
  became_empty : Int
deriving DecidableEq, Repr

/-- _apply_with_stats of src/normalize.py: apply the parser to a column
and count the non-empty values before and after. -/
def _apply_with_stats (values : List Cell) (f : Cell → Cell) :
    List Cell × ColStats :=
  let before := (values.filter pyNotNull).length
  let out := values.map f
  let after := (out.filter pyNotNull).length
  (out, ⟨before, after, (before : Int) - (after : Int)⟩)

/-- Index of a column name in the header row (first match, as pandas
column lookup with unique headers). -/
def colIdx (df : DataFrame) (name : String) : Option Nat :=
  df.headers.findIdx? (fun h => h == name)

/-- Values of column j, one per row. -/
def getColumn (df : DataFrame) (j : Nat) : List Cell :=
  df.rows.map (fun r => (r.get? j).getD Cell.cNone)

/-- Write a value list back into column j. -/
def setColumn (df : DataFrame) (j : Nat) (vals : List Cell) : DataFrame :=
  ⟨df.headers, List.zipWith (fun r v => r.set j v) df.rows vals⟩

/-- df[col] = df[col].apply(f), guarded by `if col in df.columns`: a
missing column leaves the table unchanged. -/
def applyCol (df : DataFrame) (name : String) (f : Cell → Cell) : DataFrame :=
  match colIdx df name with
  | none => df
  | some j => setColumn df j ((getColumn df j).map f)

/-- df[col], stats[col] = _apply_with_stats(df[col], f), guarded by
`if col in df.columns`: a missing column records no stats entry. -/
def applyColStats (df : DataFrame) (name : String) (f : Cell → Cell)
    (stats : List (String × ColStats)) : DataFrame × List (String × ColStats) :=
  match colIdx df name with
  | none => (df, stats)
  | some j =>
    let p := _apply_with_stats (getColumn df j) f
    (setColumn df j p.1, stats ++ [(name, p.2)])

/-- Cell-level effect of applying the money parser to a column entry:
a parsed number, or None on failure (pandas stores the parser's None
as a missing value). -/
def moneyCell (c : Cell) : Cell :=
  match _parse_money_mixed c with
  | some q => .cNum q
  | none => .cNone

/-- Cell-level effect of applying the date parser to a column entry. -/
def dateCell (c : Cell) : Cell :=
  match _parse_date_mixed c with
  | some d => .cDate d
  | none => .cNone

/-- Cell-level effect of applying the yes/no parser to a column entry:
always a string. -/
def yesNoCell (c : Cell) : Cell :=
  .cStr (_normalize_yes_no c)

/-- Cell-level effect of df["Contrato"].astype(str).str.strip(). -/
def contratoCell (c : Cell) : Cell :=
  .cStr (pyStripS (pyStrOfCell c))

/-- Failures the pipeline can raise: the missing-required-columns
ValueError of normalize_dataframe (carrying the sorted missing names it
reports) and the strict-mode ValueError of normalize_excel. -/
inductive PipeErr where
  | missingColumns (cols : List String)
  | strictIssues
deriving DecidableEq, Repr

/-- Header row after the strip and alias-rename steps of
normalize_dataframe (src/normalize.py lines 101-111). -/
def renamedHeaders (df : DataFrame) : List String :=
  (df.headers.map pyStripS).map (fun c =>
    match lookupAlias (canon_col c) with
    | some std => std
    | none => c)

/-- normalize_dataframe of src/normalize.py: strip headers, rename via
canon_col and the alias table, fail fast when a required column is
missing, run the per-column parsers (stats for Taxa and Emissão only),
coerce Contrato to stripped text, and replace every NaN-like value with
None. -/
def normalize_dataframe (df : DataFrame) :
    Except PipeErr (DataFrame × List (String × ColStats)) :=
  let headers2 := renamedHeaders df
  let missing := missingOf headers2
  if missing.isEmpty then
    let df1 : DataFrame := ⟨headers2.map pyStripS, df.rows⟩
    let p1 := applyColStats df1 ("Taxa") moneyCell []
    let p2 := applyColStats p1.1 ("Emissão") dateCell p1.2
    let df4 := applyCol p2.1 ("Data Pagamento") dateCell
    let df5 := applyCol df4 ("Vlr Liberado") moneyCell
    let df6 := applyCol df5 ("Valor Cancelado") moneyCell
    let df7 := applyCol df6 ("VALOR PAGO") moneyCell
    let df8 := applyCol df7 ("Valor Devolvido") moneyCell
    let df9 := applyCol df8 ("Pago") yesNoCell
    let df10 := applyCol df9 ("TED/Devolvida") yesNoCell
    let df11 := applyCol df10 ("Contrato") contratoCell
    let df12 : DataFrame :=
      ⟨df11.headers,
       df11.rows.map (fun r => r.map (fun c => if pyNotNull c then c else Cell.cNone))⟩
    .ok (df12, p2.2)
  else
    .error (.missingColumns missing)

/-- Decidable equality for Except values, so that concrete pipeline
results can be checked by decide. -/
instance {ε α : Type} [DecidableEq ε] [DecidableEq α] : DecidableEq (Except ε α) :=
  fun x y =>
    match x, y with
    | .ok a, .ok b => decidable_of_iff (a = b) (by simp)
    | .error a, .error b => decidable_of_iff (a = b) (by simp)
    | .ok _, .error _ => isFalse (fun h => Except.noConfusion h)
    | .error _, .ok _ => isFalse (fun h => Except.noConfusion h)

/-- Artifacts on disk for one run of normalize_excel: whether the run
directory was created, and whether issues.csv, the normalized
spreadsheet, and summary.json have been written. -/
structure FSState where
  runDirCreated : Bool
  issuesWritten : Bool
  normalizedWritten : Bool
  summaryWritten : Bool
deriving DecidableEq, Repr

/-- normalize_excel of src/normalize.py, as a transformer of the
file-system state (the input table stands for the already-read Excel
file).  Effects in source order: normalize_dataframe (raising before
anything is created on failure), make_run_dir, validate,
write_issues_csv, the strict-mode gate, then the normalized spreadsheet
and the summary.  The result pairs the state reached with the raised
error, if any. -/
def normalize_excel (df : DataFrame) (strict : Bool) : FSState × Option PipeErr :=
  match normalize_dataframe df with
  | .error e => (⟨false, false, false, false⟩, some e)
  | .ok (df2, _stats) =>
    let issues := validate_dataframe df2
    let has_any := !issues.isEmpty
    let st : FSState := ⟨true, has_any, false, false⟩
    if has_any && strict && has_errors issues then
      (st, some .strictIssues)
    else
      (⟨true, has_any, true, true⟩, none)

/-- A row whose contract or client field is empty after trimming (the
counting predicate of claim C8), phrased with the validator's own _s. -/
def emptyCC (headers : List String) (row : List Cell) : Bool :=
  (_s (rowGet headers row ("Contrato"))).isNone ||
    (_s (rowGet headers row ("Cliente"))).isNone


/-! Theorems settling the claims. -/

/-- Claim C5, counterexample: header canonicalization does NOT map
"Nº Contrato" and "numero_contrato" to the same canonical key — NFKD
folds the ordinal indicator º to a plain o, so the first canonicalizes
to "no contrato" while the second canonicalizes to "numero contrato". -/
theorem c5_counterexample : canon_col ("Nº Contrato") ≠ canon_col ("numero_contrato") := by
  decide

/-- Claim C5, amended: the accented spelling "Número Contrato" and
"numero_contrato" do map to the same canonical key, while the raw
header "Nº Contrato" canonicalizes to "no contrato", which differs from
"numero contrato". -/
theorem c5_amended_canonicalization :
    canon_col ("Número Contrato") = canon_col ("numero_contrato") ∧
    canon_col ("Nº Contrato") = "no contrato" ∧
    canon_col ("numero_contrato") = "numero contrato" := by
  decide

/-- Claim C6: the yes/no parser maps trimmed-uppercased text in the
truthy set to "SIM", text in the falsy set to "NÃO", empty or absent
input to the empty state "", and passes any other text through trimmed
and uppercased, never coercing it to a tri-state default. -/
theorem c6_yes_no_tri_state :
    (∀ s : String,
      (["SIM", "S", "YES", "Y", "TRUE", "1"].contains (pyUpperS (pyStripS s))) = true →
      _normalize_yes_no (.cStr s) = "SIM") ∧
    (∀ s : String,
      (["NÃO", "NAO", "N", "NO", "FALSE", "0"].contains (pyUpperS (pyStripS s))) = true →
      _normalize_yes_no (.cStr s) = "NÃO") ∧
    (_normalize_yes_no .cNone = "" ∧ _normalize_yes_no .cNaN = "" ∧
      (∀ s : String, pyUpperS (pyStripS s) = "" → _normalize_yes_no (.cStr s) = "")) ∧
    (∀ s : String,
      (["SIM", "S", "YES", "Y", "TRUE", "1"].contains (pyUpperS (pyStripS s))) = false →
      (["NÃO", "NAO", "N", "NO", "FALSE", "0", ""].contains (pyUpperS (pyStripS s))) = false →
      _normalize_yes_no (.cStr s) = pyUpperS (pyStripS s)) := by
  refine ⟨?_, ?_, ⟨by decide, by decide, ?_⟩, ?_⟩
  · intro s h
    simp only [_normalize_yes_no, pyStrOfCell]
    simp only [h]
    simp
  · intro s h
    simp only [_normalize_yes_no, pyStrOfCell]
    have hm := List.elem_iff.mp h
    simp only [List.mem_cons, List.not_mem_nil, or_false] at hm
    rcases hm with h1 | h1 | h1 | h1 | h1 | h1 <;> simp only [h1] <;> decide
  · intro s h
    simp only [_normalize_yes_no, pyStrOfCell]
    simp only [h]
    decide
  · intro s h1 h2
    simp only [_normalize_yes_no, pyStrOfCell]
    simp only [h1, h2]
    simp

/-- Claim C6, witness: the four behaviors at concrete inputs — a truthy
spelling, a falsy spelling, blank input, and an unrecognized value. -/
theorem c6_witness :
    _normalize_yes_no (.cStr ("  sim ")) = "SIM" ∧
    _normalize_yes_no (.cStr ("não")) = "NÃO" ∧
    _normalize_yes_no (.cStr ("   ")) = "" ∧
    _normalize_yes_no (.cStr ("Talvez")) = "TALVEZ" :=
  ⟨c6_yes_no_tri_state.1 ("  sim ") (by decide),
   c6_yes_no_tri_state.2.1 ("não") (by decide),
   c6_yes_no_tri_state.2.2.1.2.2 ("   ") (by decide),
   c6_yes_no_tri_state.2.2.2 ("Talvez") (by decide) (by decide)⟩

/-- Helper: the try/except block around float() always returns normally,
with the value the total parser computes. -/
theorem tryFloat_eq (cs : List Char) : tryFloat cs = .ok (pyFloatOfString cs) := by
  rcases h : pyFloatOfString cs with _ | q <;> simp [tryFloat, pyFloatE, h]

/-- Claim C7: all three field parsers are total — under the
exception-explicit embedding of their Python bodies (float() raising
ValueError on malformed text, the try/except catching it, and every
other operation non-raising) each parser returns normally on every cell,
with malformed input yielding the absent value rather than an error. -/
theorem c7_parsers_total :
    (∀ v : Cell, _parse_money_mixedE v = .ok (_parse_money_mixed v)) ∧
    (∀ v : Cell, _parse_date_mixedE v = .ok (_parse_date_mixed v)) ∧
    (∀ v : Cell, _normalize_yes_noE v = .ok (_normalize_yes_no v)) := by
  refine ⟨?_, ?_, ?_⟩ <;> intro v <;>
    cases v <;>
      simp only [_parse_money_mixedE, _parse_money_mixed, tryFloat_eq,
        _parse_date_mixedE, _parse_date_mixed, _normalize_yes_noE, _normalize_yes_no] <;>
      (repeat' split) <;> rfl


/-- Cleaned money text: the value after str(), strip, "R$" removal and
space removal — the string the separator disambiguation of
_parse_money_mixed inspects. -/
def moneyCleaned (s : String) : List Char :=
  (removeRMark (pyStripL s.data)).filter (fun c => !(c == ' '))

/-- Helper: replacing points by points is the identity, so choosing '.'
as the decimal separator only removes the commas. -/
theorem map_dot_id (l : List Char) : l.map (fun c => if c = '.' then '.' else c) = l := by
  induction l with
  | nil => rfl
  | cons c t ih =>
    simp only [List.map_cons, ih]
    by_cases h : c = '.'
    · rw [if_pos h, h]
    · rw [if_neg h]

/-- Helper: a cleaned money text that contains any character comes from
a non-empty stripped input. -/
theorem moneyCleaned_nonempty {s : String} {c : Char}
    (h : ((moneyCleaned s).contains c) = true) : (pyStripL s.data).isEmpty = false := by
  cases hl : pyStripL s.data with
  | nil =>
    have hmc : moneyCleaned s = [] := by simp only [moneyCleaned, hl]; rfl
    rw [hmc] at h
    exact absurd h Bool.false_ne_true
  | cons x t => rfl

/-- Helper: on a non-empty stripped input, the money parser is the
float conversion of the separator-disambiguated cleaned text (pure
unfolding of _parse_money_mixed past its empty-input guard). -/
theorem money_eval (s : String) (hne : (pyStripL s.data).isEmpty = false) :
    _parse_money_mixed (.cStr s) = pyFloatOfString (
      if (moneyCleaned s).contains '.' && (moneyCleaned s).contains ',' then
        if pyRfind (moneyCleaned s) ',' > pyRfind (moneyCleaned s) '.' then
          ((moneyCleaned s).filter (fun c => !(c == '.'))).map
            (fun c => if c == ',' then '.' else c)
        else (moneyCleaned s).filter (fun c => !(c == ','))
      else if (moneyCleaned s).contains ',' && !((moneyCleaned s).contains '.') then
        ((moneyCleaned s).filter (fun c => !(c == '.'))).map
          (fun c => if c == ',' then '.' else c)
      else moneyCleaned s) := by
  simp only [_parse_money_mixed, pyStrOfCell, moneyCleaned]
  rw [if_neg (show ¬((pyStripL s.data).isEmpty = true) by rw [hne]; decide)]

/-- Claim C2: for input containing both separators, whichever appears
last is the decimal separator (remove the other, replace the decimal one
by a point, then convert); a lone comma is the decimal separator; only a
point or no separator converts directly; and the concrete round-trip
class parses to 3000, with the empty input absent. -/
theorem c2_money_last_separator :
    (∀ s : String,
      ((moneyCleaned s).contains '.') = true → ((moneyCleaned s).contains ',') = true →
      _parse_money_mixed (.cStr s) =
        pyFloatOfString (spec_decimal_normalize (moneyCleaned s)
          (if pyRfind (moneyCleaned s) ',' > pyRfind (moneyCleaned s) '.' then ',' else '.'))) ∧
    (∀ s : String,
      ((moneyCleaned s).contains ',') = true → ((moneyCleaned s).contains '.') = false →
      _parse_money_mixed (.cStr s) =
        pyFloatOfString (spec_decimal_normalize (moneyCleaned s) ',')) ∧
    (∀ s : String,
      ((moneyCleaned s).contains ',') = false → (pyStripL s.data).isEmpty = false →
      _parse_money_mixed (.cStr s) = pyFloatOfString (moneyCleaned s)) ∧
    (_parse_money_mixed (.cStr ("3.000,00")) = some 3000 ∧
     _parse_money_mixed (.cStr ("3,000.00")) = some 3000 ∧
     _parse_money_mixed (.cStr ("3000.00")) = some 3000 ∧
     _parse_money_mixed (.cStr ("3000")) = some 3000 ∧
     _parse_money_mixed (.cStr ("")) = none) := by
  refine ⟨?_, ?_, ?_, by decide, by decide, by decide, by decide, by decide⟩
  · intro s h1 h2
    have hne := moneyCleaned_nonempty h1
    rw [money_eval s hne]
    rw [if_pos (show ((moneyCleaned s).contains '.' && (moneyCleaned s).contains ',') = true by
      rw [h1, h2]; rfl)]
    by_cases hr : pyRfind (moneyCleaned s) ',' > pyRfind (moneyCleaned s) '.'
    · rw [if_pos hr, if_pos hr]
      simp [spec_decimal_normalize]
    · rw [if_neg hr, if_neg hr]
      simp [spec_decimal_normalize, map_dot_id]
  · intro s h1 h2
    have hne := moneyCleaned_nonempty h1
    rw [money_eval s hne]
    rw [if_neg (show ¬(((moneyCleaned s).contains '.' && (moneyCleaned s).contains ',') = true) by
      rw [h2, Bool.false_and]; decide)]
    rw [if_pos (show ((moneyCleaned s).contains ',' && !((moneyCleaned s).contains '.')) = true by
      rw [h1, h2]; rfl)]
    simp [spec_decimal_normalize]
  · intro s h1 hne
    rw [money_eval s hne]
    rw [if_neg (show ¬(((moneyCleaned s).contains '.' && (moneyCleaned s).contains ',') = true) by
      rw [h1, Bool.and_false]; decide)]
    rw [if_neg (show ¬(((moneyCleaned s).contains ',' && !((moneyCleaned s).contains '.')) = true) by
      rw [h1, Bool.false_and]; decide)]

/-- Claim C2, witness: the three universal branch statements
instantiated at concrete inputs of each class. -/
theorem c2_witness :
    (_parse_money_mixed (.cStr ("3.000,00")) =
      pyFloatOfString (spec_decimal_normalize (moneyCleaned ("3.000,00"))
        (if pyRfind (moneyCleaned ("3.000,00")) ',' > pyRfind (moneyCleaned ("3.000,00")) '.'
          then ',' else '.'))) ∧
    (_parse_money_mixed (.cStr ("12,5")) =
      pyFloatOfString (spec_decimal_normalize (moneyCleaned ("12,5")) ',')) ∧
    (_parse_money_mixed (.cStr ("7.25")) = pyFloatOfString (moneyCleaned ("7.25"))) :=
  ⟨c2_money_last_separator.1 ("3.000,00") (by decide) (by decide),
   c2_money_last_separator.2.1 ("12,5") (by decide) (by decide),
   c2_money_last_separator.2.2.1 ("7.25") (by decide) (by decide)⟩

/-- Claim C3: a DD/MM/YYYY substring anywhere in the stripped text is
parsed day-first (the model of pd.to_datetime with dayfirst=True);
otherwise the general parse covering the ISO forms runs; empty or absent
input gives the absent value; and the three concrete examples all give
2026-01-02. -/
theorem c3_date_dayfirst :
    (∀ (s : String) (a b y : Nat),
      reSearchDate (pyStripL s.data) = some (a, b, y) →
      _parse_date_mixed (.cStr s) = toDatetimeDayfirstDate a b y) ∧
    (∀ s : String,
      reSearchDate (pyStripL s.data) = none →
      _parse_date_mixed (.cStr s) = parseISOGeneral (pyStripL s.data)) ∧
    (_parse_date_mixed .cNone = none) ∧
    (∀ s : String, pyStripL s.data = [] → _parse_date_mixed (.cStr s) = none) ∧
    (_parse_date_mixed (.cStr ("02/01/2026")) = some ⟨2026, 1, 2⟩ ∧
     _parse_date_mixed (.cStr ("() 02/01/2026")) = some ⟨2026, 1, 2⟩ ∧
     _parse_date_mixed (.cStr ("2026-01-02")) = some ⟨2026, 1, 2⟩) := by
  refine ⟨?_, ?_, by decide, ?_, by decide, by decide, by decide⟩
  · intro s a b y h
    cases he : (pyStripL s.data).isEmpty
    · simp only [_parse_date_mixed, pyStrOfCell]
      rw [if_neg (show ¬((pyStripL s.data).isEmpty = true) by rw [he]; decide)]
      rw [h]
    · have hx : pyStripL s.data = [] := by
        cases hl : pyStripL s.data with
        | nil => rfl
        | cons x t => rw [hl] at he; exact absurd he Bool.false_ne_true
      rw [hx] at h
      exact Option.noConfusion h
  · intro s h
    cases he : (pyStripL s.data).isEmpty
    · simp only [_parse_date_mixed, pyStrOfCell]
      rw [if_neg (show ¬((pyStripL s.data).isEmpty = true) by rw [he]; decide)]
      rw [h]
    · have hx : pyStripL s.data = [] := by
        cases hl : pyStripL s.data with
        | nil => rfl
        | cons x t => rw [hl] at he; exact absurd he Bool.false_ne_true
      simp only [_parse_date_mixed, pyStrOfCell, hx]
      decide
  · intro s h
    simp only [_parse_date_mixed, pyStrOfCell, h]
    decide

/-- Claim C3, witness: the regex branch at a day-first date, the general
branch at a non-date text, and the empty branch at blank input. -/
theorem c3_witness :
    (_parse_date_mixed (.cStr ("31/12/2026")) = toDatetimeDayfirstDate 31 12 2026) ∧
    (_parse_date_mixed (.cStr ("hello")) = parseISOGeneral (pyStripL ("hello").data)) ∧
    (_parse_date_mixed (.cStr ("   ")) = none) :=
  ⟨c3_date_dayfirst.1 ("31/12/2026") 31 12 2026 (by decide),
   c3_date_dayfirst.2.1 ("hello") (by decide),
   c3_date_dayfirst.2.2.2.1 ("   ") (by decide)⟩

/-- Helper: membership in a conditional singleton forces equality with
its element. -/
theorem mem_ite_single {α : Type} {c : Prop} [Decidable c] {x i : α}
    (hi : i ∈ (if c then [x] else [])) : i = x := by
  split at hi
  · simpa using hi
  · simp at hi

/-- Helper: a row with empty contract or client (after trimming) yields
at least one issue — the corresponding emptiness check fires. -/
theorem rowChecks_len_pos (idx : Nat) (g : String → Cell)
    (h : ((_s (g ("Contrato"))).isNone || (_s (g ("Cliente"))).isNone) = true) :
    0 < (rowChecks idx g).length := by
  by_cases h1 : (_s (g ("Contrato"))).isNone = true
  · simp only [rowChecks, if_pos h1, List.length_append, List.length_singleton]
    omega
  · have h2 : (_s (g ("Cliente"))).isNone = true := by
      cases ha : (_s (g ("Contrato"))).isNone
      · rw [ha, Bool.false_or] at h; exact h
      · exact absurd ha h1
    simp only [rowChecks, if_pos h2, List.length_append, List.length_singleton]
    omega

/-- Helper: the validator loop collects at least one issue per row whose
contract or client is empty. -/
theorem validateGo_count_le (headers : List String) (rows : List (List Cell)) (idx : Nat) :
    rows.countP (fun r => emptyCC headers r) ≤ (validateGo headers idx rows).length := by
  induction rows generalizing idx with
  | nil => simp [validateGo]
  | cons r rest ih =>
    have hrec := ih (idx + 1)
    by_cases h : emptyCC headers r = true
    · have hp := rowChecks_len_pos idx (rowGet headers r) (by
        have hh := h
        simp only [emptyCC] at hh
        exact hh)
      simp only [validateGo, List.countP_cons, List.length_append, h, if_true]
      omega
    · have hb : emptyCC headers r = false := by
        cases hb : emptyCC headers r
        · rfl
        · exact absurd hb h
      simp only [validateGo, List.countP_cons, List.length_append, hb]
      simp only [Bool.false_eq_true, if_false]
      omega

/-- Claim C8: the number of issues the validator returns is at least the
number of rows whose contract field or client field is empty after
trimming. -/
theorem c8_validator_lower_bound (df : DataFrame) :
    df.rows.countP (fun r => emptyCC df.headers r) ≤ (validate_dataframe df).length :=
  validateGo_count_le df.headers df.rows 0

/-- Helper: every issue emitted by the checks of row k carries row
index k. -/
theorem rowChecks_row_mem (k : Nat) (g : String → Cell) :
    ∀ i ∈ rowChecks k g, i.row = k := by
  intro i hi
  simp only [rowChecks, List.mem_append] at hi
  rcases hi with (((hi | hi) | hi) | hi) | hi
  · rw [mem_ite_single hi]
  · rw [mem_ite_single hi]
  · split at hi
    · simp only [List.mem_append] at hi
      rcases hi with hi | hi
      · rw [mem_ite_single hi]
      · rw [mem_ite_single hi]
    · simp at hi
  · rw [mem_ite_single hi]
  · rw [mem_ite_single hi]

/-- Helper: issues collected from row index k onwards carry row indices
at least k. -/
theorem validateGo_row_ge (headers : List String) (k : Nat) (rows : List (List Cell)) :
    ∀ i ∈ validateGo headers k rows, k ≤ i.row := by
  induction rows generalizing k with
  | nil => intro i hi; simp [validateGo] at hi
  | cons r rest ih =>
    intro i hi
    simp only [validateGo, List.mem_append] at hi
    rcases hi with hi | hi
    · exact le_of_eq (rowChecks_row_mem k _ i hi).symm
    · exact Nat.le_of_succ_le (ih (k + 1) i hi)

/-- Helper: filtering the validator's output to one row index returns
exactly that row's checks (issues of one row are contiguous and carry
its index). -/
theorem validateGo_filter (headers : List String) (rows : List (List Cell)) (k n : Nat)
    (row : List Cell) (h : rows.get? n = some row) :
    (validateGo headers k rows).filter (fun i => i.row == k + n) =
      rowChecks (k + n) (rowGet headers row) := by
  induction rows generalizing k n with
  | nil => simp at h
  | cons r rest ih =>
    cases n with
    | zero =>
      have hr : r = row := by simpa using h
      subst hr
      simp only [validateGo, List.filter_append]
      have h1 : (rowChecks k (rowGet headers r)).filter (fun i => i.row == k + 0) =
          rowChecks k (rowGet headers r) := by
        apply List.filter_eq_self.mpr
        intro i hi
        have hk := rowChecks_row_mem k (rowGet headers r) i hi
        simp [hk]
      have h2 : (validateGo headers (k + 1) rest).filter (fun i => i.row == k + 0) = [] := by
        apply List.filter_eq_nil_iff.mpr
        intro i hi
        have hk := validateGo_row_ge headers (k + 1) rest i hi
        simp only [Nat.add_zero, beq_iff_eq]
        omega
      rw [h1, h2, List.append_nil, Nat.add_zero]
    | succ m =>
      have h' : rest.get? m = some row := by simpa using h
      simp only [validateGo, List.filter_append]
      have h1 : (rowChecks k (rowGet headers r)).filter (fun i => i.row == k + (m + 1)) = [] := by
        apply List.filter_eq_nil_iff.mpr
        intro i hi
        have hk := rowChecks_row_mem k (rowGet headers r) i hi
        simp only [beq_iff_eq]
        omega
      have e : k + (m + 1) = (k + 1) + m := by omega
      rw [h1, List.nil_append, e, ih (k + 1) m h']

/-- Claim C4, amended: for a row with non-empty contract and client,
paid flag "SIM", empty payment date, empty paid amount — and which does
not also trip the returned-flag check — the validator emits exactly two
ERROR issues for that row, the missing-date issue before the
missing-amount issue.  (The original claim omitted the returned-flag
guard; see the counterexample.) -/
theorem c4_amended (headers : List String) (rows : List (List Cell)) (idx : Nat)
    (row : List Cell) (hrow : rows.get? idx = some row)
    (hc : (_s (rowGet headers row ("Contrato"))).isNone = false)
    (hcl : (_s (rowGet headers row ("Cliente"))).isNone = false)
    (hp : cellEqStr (rowGet headers row ("Pago")) ("SIM") = true)
    (hd : pyIsNa (rowGet headers row ("Data Pagamento")) = true)
    (hv : pyIsNa (rowGet headers row ("VALOR PAGO")) = true)
    (ht : (cellEqStr (rowGet headers row ("TED/Devolvida")) ("SIM") &&
      pyIsNa (rowGet headers row ("Valor Devolvido"))) = false) :
    (validate_dataframe ⟨headers, rows⟩).filter (fun i => i.row == idx) =
      [⟨"ERROR", idx, _s (rowGet headers row ("Contrato")),
        _s (rowGet headers row ("Cliente")), "Pago=SIM mas Data Pagamento vazio"⟩,
       ⟨"ERROR", idx, _s (rowGet headers row ("Contrato")),
        _s (rowGet headers row ("Cliente")), "Pago=SIM mas VALOR PAGO vazio"⟩] := by
  have hf := validateGo_filter headers rows 0 idx row hrow
  simp only [Nat.zero_add] at hf
  show (validateGo headers 0 rows).filter (fun i => i.row == idx) = _
  rw [hf]
  simp only [rowChecks]
  rw [if_neg (show ¬((_s (rowGet headers row ("Contrato"))).isNone = true) by
    rw [hc]; decide)]
  rw [if_neg (show ¬((_s (rowGet headers row ("Cliente"))).isNone = true) by
    rw [hcl]; decide)]
  rw [if_pos hp, if_pos hd, if_pos hv]
  rw [if_neg (show ¬((!cellEqStr (rowGet headers row ("Pago")) ("SIM") &&
    !pyIsNa (rowGet headers row ("VALOR PAGO"))) = true) by rw [hp, hv]; decide)]
  rw [if_neg (show ¬((cellEqStr (rowGet headers row ("TED/Devolvida")) ("SIM") &&
    pyIsNa (rowGet headers row ("Valor Devolvido"))) = true) by rw [ht]; decide)]
  rfl

/-- Claim C4, witness: the amended scenario at a concrete one-row table
with the three columns set and no returned-flag anomaly. -/
theorem c4_witness :
    (validate_dataframe ⟨["Cliente", "Contrato", "Pago"],
      [[Cell.cStr ("Ana"), Cell.cStr ("C9"), Cell.cStr ("SIM")]]⟩).filter
        (fun i => i.row == 0) =
    [⟨"ERROR", 0, some ("C9"), some ("Ana"), "Pago=SIM mas Data Pagamento vazio"⟩,
     ⟨"ERROR", 0, some ("C9"), some ("Ana"), "Pago=SIM mas VALOR PAGO vazio"⟩] := by
  exact c4_amended ["Cliente", "Contrato", "Pago"]
    [[Cell.cStr ("Ana"), Cell.cStr ("C9"), Cell.cStr ("SIM")]] 0
    [Cell.cStr ("Ana"), Cell.cStr ("C9"), Cell.cStr ("SIM")]
    (by decide) (by decide) (by decide) (by decide) (by decide) (by decide) (by decide)

/-- Claim C4, counterexample: a row satisfying every condition the claim
states (non-empty contract and client, paid flag "SIM", empty payment
date, empty paid amount) but whose returned flag is "SIM" with an empty
returned amount receives three ERROR issues, not exactly two. -/
theorem c4_counterexample :
    ((_s (rowGet ["Cliente", "Contrato", "Pago", "TED/Devolvida"]
      [Cell.cStr ("Ana"), Cell.cStr ("C9"), Cell.cStr ("SIM"), Cell.cStr ("SIM")]
      ("Contrato"))).isNone = false) ∧
    ((_s (rowGet ["Cliente", "Contrato", "Pago", "TED/Devolvida"]
      [Cell.cStr ("Ana"), Cell.cStr ("C9"), Cell.cStr ("SIM"), Cell.cStr ("SIM")]
      ("Cliente"))).isNone = false) ∧
    (cellEqStr (rowGet ["Cliente", "Contrato", "Pago", "TED/Devolvida"]
      [Cell.cStr ("Ana"), Cell.cStr ("C9"), Cell.cStr ("SIM"), Cell.cStr ("SIM")]
      ("Pago")) ("SIM") = true) ∧
    (pyIsNa (rowGet ["Cliente", "Contrato", "Pago", "TED/Devolvida"]
      [Cell.cStr ("Ana"), Cell.cStr ("C9"), Cell.cStr ("SIM"), Cell.cStr ("SIM")]
      ("Data Pagamento")) = true) ∧
    (pyIsNa (rowGet ["Cliente", "Contrato", "Pago", "TED/Devolvida"]
      [Cell.cStr ("Ana"), Cell.cStr ("C9"), Cell.cStr ("SIM"), Cell.cStr ("SIM")]
      ("VALOR PAGO")) = true) ∧
    (((validate_dataframe ⟨["Cliente", "Contrato", "Pago", "TED/Devolvida"],
      [[Cell.cStr ("Ana"), Cell.cStr ("C9"), Cell.cStr ("SIM"), Cell.cStr ("SIM")]]⟩).filter
        (fun i => i.row == 0)).length = 3) := by
  decide

/-- Claim C1, counterexample: on a table whose one row has an empty
client (an ERROR issue), strict mode raises the strict failure with the
run directory created and issues.csv written but the normalized
spreadsheet and summary.json NOT yet written — the claim's assertion
that all three artifacts exist at that moment is false. -/
theorem c1_counterexample :
    (normalize_excel ⟨["Cliente", "Contrato", "Emissão", "Vlr Liberado"],
      [[Cell.cStr (""), Cell.cStr ("C-1"), Cell.cNone, Cell.cNone]]⟩ true).2 =
        some PipeErr.strictIssues ∧
    (normalize_excel ⟨["Cliente", "Contrato", "Emissão", "Vlr Liberado"],
      [[Cell.cStr (""), Cell.cStr ("C-1"), Cell.cNone, Cell.cNone]]⟩ true).1.issuesWritten =
        true ∧
    (normalize_excel ⟨["Cliente", "Contrato", "Emissão", "Vlr Liberado"],
      [[Cell.cStr (""), Cell.cStr ("C-1"), Cell.cNone, Cell.cNone]]⟩ true).1.normalizedWritten =
        false ∧
    (normalize_excel ⟨["Cliente", "Contrato", "Emissão", "Vlr Liberado"],
      [[Cell.cStr (""), Cell.cStr ("C-1"), Cell.cNone, Cell.cNone]]⟩ true).1.summaryWritten =
        false := by
  decide

/-- Claim C1, amended: in strict mode, whenever normalization succeeds
and validation finds at least one ERROR issue, the pipeline creates the
run directory and writes issues.csv, then raises the strict failure
BEFORE writing the normalized spreadsheet and summary.json — the strict
gate sits between the issues file and the other two artifacts, not after
all three. -/
theorem c1_strict_gate (df df2 : DataFrame) (stats : List (String × ColStats))
    (h : normalize_dataframe df = .ok (df2, stats))
    (herr : has_errors (validate_dataframe df2) = true) :
    normalize_excel df true = (⟨true, true, false, false⟩, some PipeErr.strictIssues) := by
  have hne : (validate_dataframe df2).isEmpty = false := by
    cases hi : validate_dataframe df2 with
    | nil => rw [hi] at herr; exact absurd herr (by decide)
    | cons a l => rfl
  simp only [normalize_excel, h]
  simp [hne, herr]

/-- Claim C1, witness: the strict gate at a concrete table whose row has
an empty contract. -/
theorem c1_witness :
    normalize_excel ⟨["Cliente", "Contrato", "Emissão", "Vlr Liberado"],
      [[Cell.cStr ("Bob"), Cell.cStr (""), Cell.cNone, Cell.cNone]]⟩ true =
    (⟨true, true, false, false⟩, some PipeErr.strictIssues) :=
  c1_strict_gate _
    ⟨["Cliente", "Contrato", "Emissão", "Vlr Liberado"],
      [[Cell.cStr ("Bob"), Cell.cStr (""), Cell.cNone, Cell.cNone]]⟩
    [("Emissão", ⟨0, 0, 0⟩)] (by decide) (by decide)

/-- Claim C9: a table that lacks a required internal column after
canonicalization and renaming makes the pipeline abort with the
descriptive missing-columns error, before the run directory or any
artifact is created. -/
theorem c9_missing_required_abort (df : DataFrame) (strict : Bool)
    (h : missingOf (renamedHeaders df) ≠ []) :
    normalize_excel df strict =
      (⟨false, false, false, false⟩,
        some (PipeErr.missingColumns (missingOf (renamedHeaders df)))) := by
  have hne : (missingOf (renamedHeaders df)).isEmpty = false := by
    cases hi : missingOf (renamedHeaders df) with
    | nil => exact absurd hi h
    | cons a l => rfl
  simp only [normalize_excel, normalize_dataframe, hne]
  simp

/-- Claim C9, witness: a table presenting only the client column aborts
naming the other three required columns, with nothing created. -/
theorem c9_witness :
    missingOf (renamedHeaders ⟨["Cliente"], ([] : List (List Cell))⟩) ≠ [] ∧
    normalize_excel ⟨["Cliente"], ([] : List (List Cell))⟩ false =
      (⟨false, false, false, false⟩,
        some (PipeErr.missingColumns
          (missingOf (renamedHeaders ⟨["Cliente"], ([] : List (List Cell))⟩)))) :=
  ⟨by decide, c9_missing_required_abort ⟨["Cliente"], ([] : List (List Cell))⟩ false (by decide)⟩

/-- Claim C10: a missing (NaN or None) contract cell is coerced by the
Contrato astype(str) step to the non-empty literal "nan" (or "None")
before the null-to-absent replacement (which keeps strings), so the
validator raises no "Contrato vazio" ERROR for such a row — shown
cell-level, row-level, and end-to-end on a table whose contract cell is
NaN. -/
theorem c10_nan_contract :
    (contratoCell Cell.cNaN = Cell.cStr ("nan")) ∧
    (contratoCell Cell.cNone = Cell.cStr ("None")) ∧
    (pyNotNull (Cell.cStr ("nan")) = true) ∧
    (∀ (idx : Nat) (g : String → Cell), g ("Contrato") = Cell.cStr ("nan") →
      ((rowChecks idx g).filter (fun i => i.message == "Contrato vazio")).length = 0) ∧
    (normalize_dataframe ⟨["Cliente", "Contrato", "Emissão", "Vlr Liberado"],
        [[Cell.cStr ("Alice"), Cell.cNaN, Cell.cNone, Cell.cNone]]⟩ =
      .ok (⟨["Cliente", "Contrato", "Emissão", "Vlr Liberado"],
        [[Cell.cStr ("Alice"), Cell.cStr ("nan"), Cell.cNone, Cell.cNone]]⟩,
        [("Emissão", ⟨0, 0, 0⟩)]) ∧
     ((validate_dataframe ⟨["Cliente", "Contrato", "Emissão", "Vlr Liberado"],
        [[Cell.cStr ("Alice"), Cell.cStr ("nan"), Cell.cNone, Cell.cNone]]⟩).filter
          (fun i => i.message == "Contrato vazio")).length = 0) := by
  refine ⟨by decide, by decide, by decide, ?_, by decide, by decide⟩
  intro idx g hg
  have hs : _s (Cell.cStr ("nan")) = some ("nan") := by decide
  have hlen : (rowChecks idx g).filter (fun i => i.message == "Contrato vazio") = [] := by
    apply List.filter_eq_nil_iff.mpr
    intro i hi
    simp only [rowChecks, hg, hs, List.mem_append] at hi
    simp only [Option.isNone_some, Bool.false_eq_true, if_false, List.not_mem_nil,
      false_or] at hi
    rcases hi with ((hi | hi) | hi) | hi
    · rw [mem_ite_single hi]; simp
    · split at hi
      · simp only [List.mem_append] at hi
        rcases hi with hi | hi
        · rw [mem_ite_single hi]; simp
        · rw [mem_ite_single hi]; simp
      · simp at hi
    · rw [mem_ite_single hi]; simp
    · rw [mem_ite_single hi]; simp
  rw [hlen]
  rfl

/-- Claim C10, witness: the row-level statement at a concrete one-column
row whose contract cell holds the coerced text "nan". -/
theorem c10_witness :
    ((rowChecks 0 (rowGet ["Contrato"] [Cell.cStr ("nan")])).filter
      (fun i => i.message == "Contrato vazio")).length = 0 :=
  c10_nan_contract.2.2.2.1 0 (rowGet ["Contrato"] [Cell.cStr ("nan")]) (by decide)
